import Mathlib

/-!
Verification of the environment-override resolver of the mesc repository
(`src/python/mesc/overrides.py`) against its natural-language specification.

The Python module is embedded shallowly: every function of `overrides.py` is
translated into a Lean definition.  Python runtime failures (TypeError on a
call whose arity does not match the definition, AttributeError on a missing
attribute, NameError on an unbound identifier, ValueError from `int()` or
unpacking) are made explicit as `Except` errors, alongside the two
domain-level error kinds of the spec (`InvalidOverrideError`,
`MissingEndpointError`).  Object mutation performed by `apply_env_overrides`
is modelled with an explicit store of configuration objects, so that the
frame property about the caller's configuration object is expressible.

The data types `RpcConfig`, `Endpoint` and `Profile` come from `mesc.types`,
and the error classes from `mesc.exceptions`; those modules are not part of
the analysed sources, so they are modelled from the spec (section 3 DATA
MODEL and section 7 ERROR HANDLING DESIGN), as is the external network
directory collaborator.
-/

namespace Mesc

/-- Dynamic (JSON-like) values appearing in the metadata and network-name
maps.  The exercised fragment only needs integers and strings. -/
inductive PyVal where
  | int (n : Int)
  | str (s : String)
deriving Repr, DecidableEq

/-- Python dictionary keys of the configuration's `network_defaults` map.
Base configurations carry decimal-string chain ids as keys (spec section 4.1:
"mapping chain-id (string, canonical form) → endpoint name"), while
`_chain_id_to_endpoint_name` performs its lookup with an `int` key; Python
compares `int` and `str` keys as unequal, which `PyKey.beq` mirrors. -/
inductive PyKey where
  | str (s : String)
  | int (n : Int)
deriving Repr, DecidableEq

/-- Python equality between dictionary keys: an `int` never equals a `str`. -/
def PyKey.beq : PyKey → PyKey → Bool
  | .str a, .str b => a == b
  | .int a, .int b => a == b
  | _, _ => false

instance : BEq PyKey := ⟨PyKey.beq⟩

/-- Python `str(k)` on a key, used in error messages. -/
def PyKey.pyStr : PyKey → String
  | .str s => s
  | .int n => toString n

/-- Errors the embedded code can signal.  The first five are Python runtime
errors; `invalidOverride` and `missingEndpoint` model the two error kinds of
`mesc.exceptions` described by the spec (`InvalidOverrideError`,
`MissingEndpointError`); `genericException` models a bare `raise Exception`. -/
inductive PyErr where
  | typeError (msg : String)
  | attributeError (msg : String)
  | nameError (msg : String)
  | valueError (msg : String)
  | jsonDecodeError (msg : String)
  | invalidOverride (msg : String)
  | missingEndpoint (msg : String)
  | genericException (msg : String)
deriving Repr, DecidableEq

/-- The process environment, an injected read-only key-value source
(spec section 9): `os.environ.get` is lookup returning `none` when the
variable is unset. -/
abbrev Env : Type := List (String × String)

/-- `os.environ.get(key)`. -/
def Env.get (env : Env) (key : String) : Option String :=
  List.lookup key env

/-- Association-list lookup with string keys, Python `d[k]` / `k in d`. -/
def dictLookup (d : List (String × α)) (k : String) : Option α :=
  List.lookup k d

/-- Python `d[k] = v` on an insertion-ordered dict: an existing key keeps its
position and gets the new value, a new key is appended. -/
def dictSet [BEq κ] (d : List (κ × α)) (k : κ) (v : α) : List (κ × α) :=
  if (d.find? (fun p => p.1 == k)).isSome then
    d.map (fun p => if p.1 == k then (k, v) else p)
  else
    d ++ [(k, v)]

/-- Python `d.update(other)`: entries of `other` are written into `d` in
order, overwriting same-named entries and appending new ones. -/
def dictUpdate [BEq κ] (d other : List (κ × α)) : List (κ × α) :=
  other.foldl (fun acc p => dictSet acc p.1 p.2) d

/-- Python `x in d` where `d` has string keys and `x` is a `str` or `None`
(`None` is never equal to a string key, so membership is false). -/
def py_in_keys (x : Option String) (d : List (String × α)) : Bool :=
  match x with
  | some s => (dictLookup d s).isSome
  | none => false

/-- Python `s.split(sep, 1)`: split at the first occurrence of `sep` only. -/
def py_split_limit1 (s sep : String) : List String :=
  match s.splitOn sep with
  | [] => [s]
  | [x] => [x]
  | x :: rest => [x, String.intercalate sep rest]

/-- Numeric value of a list of decimal digits. -/
def digitsToNat (cs : List Char) : Nat :=
  cs.foldl (fun a c => a * 10 + (c.toNat - ('0').toNat)) 0

/-- Python `int(s)` on the fragment exercised here: optional surrounding
whitespace, an optional sign, then ASCII decimal digits; anything else
raises `ValueError`.  (Python additionally accepts underscores between
digits and non-ASCII decimals, which no exercised input uses.) -/
def py_int (s : String) : Except PyErr Int :=
  let cs := s.trim.toList
  let signAndRest : Bool × List Char :=
    match cs with
    | '-' :: r => (true, r)
    | '+' :: r => (false, r)
    | _ => (false, cs)
  let neg := signAndRest.1
  let rest := signAndRest.2
  if rest ≠ [] ∧ rest.all Char.isDigit then
    let n : Int := Int.ofNat (digitsToNat rest)
    .ok (if neg then -n else n)
  else
    .error (.valueError ("invalid literal for int with base 10: " ++ s))

/-- Character-list form of Python `s.startswith(pre)`. -/
def charsStart : List Char → List Char → Bool
  | [], _ => true
  | _ :: _, [] => false
  | p :: ps, c :: cs => p == c && charsStart ps cs

/-- Python `s.startswith(pre)`. -/
def py_startswith (s pre : String) : Bool :=
  charsStart pre.toList s.toList

/-- Whitespace skipping for the JSON fragment parser. -/
def skipWs : List Char → List Char
  | c :: rest =>
      if c = ' ' ∨ c = '\n' ∨ c = '\t' ∨ c = '\r' then skipWs rest else c :: rest
  | [] => []

/-- Read the body of a JSON string literal up to the closing quote
(escape sequences are outside the exercised fragment). -/
def takeStringLit : List Char → Except PyErr (String × List Char)
  | [] => .error (.jsonDecodeError "unterminated string")
  | c :: rest =>
      if c = '"' then .ok ("", rest)
      else do
        let (s, r) ← takeStringLit rest
        .ok (String.mk (c :: s.toList), r)

/-- Parse one JSON scalar value of the fragment: a string or an integer. -/
def parseScalar (cs : List Char) : Except PyErr (PyVal × List Char) :=
  match cs with
  | '"' :: rest => do
      let (s, r) ← takeStringLit rest
      .ok (.str s, r)
  | _ =>
      let signAndRest : Bool × List Char :=
        match cs with
        | '-' :: r => (true, r)
        | _ => (false, cs)
      let digitsAndRest := signAndRest.2.span Char.isDigit
      if digitsAndRest.1 = [] then .error (.jsonDecodeError "expecting value")
      else
        let n : Int := Int.ofNat (digitsToNat digitsAndRest.1)
        .ok (.int (if signAndRest.1 then -n else n), digitsAndRest.2)

/-- Parse the members of a JSON object after the opening brace, fuelled by
the input length. -/
def parsePairs (fuel : Nat) (cs : List Char) (acc : List (String × PyVal)) :
    Except PyErr (List (String × PyVal)) :=
  match fuel with
  | 0 => .error (.jsonDecodeError "input exhausted")
  | fuel + 1 =>
      match skipWs cs with
      | '"' :: rest => do
          let (key, cs1) ← takeStringLit rest
          match skipWs cs1 with
          | ':' :: cs2 => do
              let (v, cs3) ← parseScalar (skipWs cs2)
              match skipWs cs3 with
              | ',' :: cs4 => parsePairs fuel cs4 (dictSet acc key v)
              | '\x7d' :: cs4 =>
                  if skipWs cs4 = [] then .ok (dictSet acc key v)
                  else .error (.jsonDecodeError "extra data")
              | _ => .error (.jsonDecodeError "expecting comma delimiter")
          | _ => .error (.jsonDecodeError "expecting colon delimiter")
      | _ => .error (.jsonDecodeError "expecting property name")

/-- Python `json.loads` on the fragment these variables use per the spec:
a flat JSON object with string keys and integer or string values (sections
4.1 and 6 only assign flat objects to `MESC_NETWORK_NAMES`,
`MESC_GLOBAL_METADATA`, `MESC_ENDPOINT_METADATA`).  Malformed input raises
a decode error, as `json.loads` does. -/
def json_loads (s : String) : Except PyErr (List (String × PyVal)) :=
  match skipWs s.toList with
  | '\x7b' :: rest =>
      match skipWs rest with
      | '\x7d' :: tail =>
          if skipWs tail = [] then .ok []
          else .error (.jsonDecodeError "extra data")
      | _ => parsePairs s.length rest []
  | _ => .error (.jsonDecodeError "expecting object")

/-- Modelled from the spec: the `Endpoint` record of `mesc.types`
(spec section 3): name, url, optional chain id, metadata map. -/
structure Endpoint where
  name : String
  url : String
  chain_id : Option String
  endpoint_metadata : List (String × PyVal)
deriving Repr, DecidableEq

/-- Modelled from the spec: the `Profile` record of `mesc.types`
(spec section 3).  `network_defaults` is optional because
`env_profiles` creates profile entries whose field is the literal `None`. -/
structure Profile where
  default_endpoint : Option String
  network_defaults : Option (List (String × String))
deriving Repr, DecidableEq

/-- Modelled from the spec: the `RpcConfig` mapping of `mesc.types`
(spec section 3 DATA MODEL). -/
structure RpcConfig where
  mesc_version : String
  default_endpoint : Option String
  network_defaults : List (PyKey × String)
  network_names : List (String × PyVal)
  endpoints : List (String × Endpoint)
  profiles : List (String × Profile)
  global_metadata : List (String × PyVal)
deriving Repr, DecidableEq

/-- The literal dictionary built by `apply_env_overrides` when its argument
is `None`. -/
def emptyRpcConfig : RpcConfig :=
  { mesc_version := "1.0"
    default_endpoint := none
    network_defaults := []
    network_names := []
    endpoints := []
    profiles := []
    global_metadata := [] }

/-- A store of configuration objects; a Python object reference is an index
into the store.  `copy.deepcopy` allocates a fresh object, and in-place
dictionary updates write back through the reference. -/
abbrev Store : Type := List RpcConfig

/-- Read the object a reference points to. -/
def Store.read (σ : Store) (r : Nat) : Option RpcConfig :=
  List.get? σ r

/-- The computation monad of the embedding: explicit store passing with
Python exceptions as `Except` errors.  An exception does not roll back
writes already performed, so the store is returned on the error path too. -/
abbrev PyM (α : Type) : Type := Store → Except PyErr α × Store

instance : Monad PyM where
  pure a := fun σ => (.ok a, σ)
  bind x f := fun σ =>
    match x σ with
    | (.ok a, σ2) => f a σ2
    | (.error e, σ2) => (.error e, σ2)

/-- Lift a pure, store-independent computation into `PyM`. -/
def liftE (x : Except PyErr α) : PyM α := fun σ => (x, σ)

/-- Allocate a fresh configuration object (`copy.deepcopy` / a dict literal)
and return its reference. -/
def allocR (c : RpcConfig) : PyM Nat := fun σ => (.ok σ.length, σ ++ [c])

/-- Dereference a configuration object.  A reference handed in by a caller
is always valid in Python; the default covers the model's partiality only. -/
def readR (r : Nat) : PyM RpcConfig :=
  fun σ => (.ok ((Store.read σ r).getD emptyRpcConfig), σ)

/-- Mutate the object behind a reference in place
(`config[...] = ...` / `config[...].update(...)`). -/
def modifyR (r : Nat) (f : RpcConfig → RpcConfig) : PyM Unit :=
  fun σ => (.ok (), σ.set r (f ((Store.read σ r).getD emptyRpcConfig)))

/-- Modelled from the spec: the external network directory collaborator,
`directory.network_name_to_chain_id(alias) -> chain_id | absent` (spec
section 6).  The argument is optional because `env_default_endpoint`
forwards a value that may be Python `None`. -/
abbrev Directory : Type := Option String → Option Int

/-- The result of `env_default_endpoint`: the source's final branch executes
`return exceptions.InvalidOverride(...)`, handing the exception *object*
back as the return value instead of raising it, which `exceptionObject`
records. -/
inductive DefaultEndpointOutcome where
  | value (s : Option String)
  | exceptionObject (msg : String)
deriving Repr, DecidableEq

/-- The attribute access `default_endpoint.is_decimal()` in
`env_default_endpoint`.  Neither `str` nor `None` has an attribute named
`is_decimal` (the `str` method is spelled `isdecimal`), so evaluating it
raises `AttributeError` for every value this variable can hold. -/
def py_is_decimal (x : Option String) : Except PyErr Bool :=
  match x with
  | some _ => .error (.attributeError "str object has no attribute is_decimal")
  | none => .error (.attributeError "NoneType object has no attribute is_decimal")

/-- `_chain_id_to_endpoint_name(chain_id, config)` of `overrides.py`:
`config["network_defaults"].get(chain_id)`, raising
`MissingEndpointError` when the lookup misses.  All call sites pass an
`int` chain id, while base configurations key this map by decimal strings,
so the `PyKey` lookup mirrors Python's cross-type key comparison. -/
def _chain_id_to_endpoint_name (chain_id : PyKey) (config : RpcConfig) :
    Except PyErr String :=
  match config.network_defaults.find? (fun p => p.1 == chain_id) with
  | none =>
      .error (.missingEndpoint
        ("no endpoint for given default network: " ++ chain_id.pyStr))
  | some p => .ok p.2

/-- The value of `config["network_names"][k]` coerced to a dictionary key
for the forwarded `_chain_id_to_endpoint_name` lookup. -/
def PyVal.toKey : PyVal → PyKey
  | .int n => .int n
  | .str s => .str s

/-- `env_default_endpoint(config)` of `overrides.py` (the spec's
`resolve_default_endpoint`).  Reads `MESC_DEFAULT_ENDPOINT`; if the value is
a key of `config["endpoints"]` it is returned verbatim, otherwise the
`elif default_endpoint.is_decimal()` test raises `AttributeError` (see
`py_is_decimal`), making every later branch — the decimal chain-id path,
the `network_names` path, the directory path and the final
`return exceptions.InvalidOverride(...)` — unreachable. -/
def env_default_endpoint (dir : Directory) (env : Env) (config : RpcConfig) :
    Except PyErr DefaultEndpointOutcome := do
  let default_endpoint := env.get "MESC_DEFAULT_ENDPOINT"
  if py_in_keys default_endpoint config.endpoints then
    pure (.value default_endpoint)
  else do
    let dec ← py_is_decimal default_endpoint
    if dec then do
      let n ← py_int (default_endpoint.getD "")
      let name ← _chain_id_to_endpoint_name (.int n) config
      pure (.value (some name))
    else if py_in_keys default_endpoint config.network_names then do
      let chain_id :=
        ((dictLookup config.network_names (default_endpoint.getD "")).getD
          (.int 0)).toKey
      let name ← _chain_id_to_endpoint_name chain_id config
      pure (.value (some name))
    else if (dir default_endpoint).isSome then do
      let chain_id := (dir default_endpoint).getD 0
      let name ← _chain_id_to_endpoint_name (.int chain_id) config
      pure (.value (some name))
    else
      pure (.exceptionObject "Invalid syntax used for MESC_DEFAULT_ENDPOINT")

/-- One step of the dictionary comprehension
`{name: int(chain_id) for network, endpoint in items}` in
`env_network_defaults`: each item first unpacks into `(network, endpoint)`
(`ValueError` unless it has exactly two parts), then the key expression
`name` is evaluated — but neither `name` nor `chain_id` is bound anywhere
in the function, so the first iteration raises `NameError`. -/
def nd_comprehension : List (List String) → Except PyErr (List (String × String))
  | [] => .ok []
  | item :: _ =>
      if item.length == 2 then .error (.nameError "name is not defined")
      else if item.length < 2 then
        .error (.valueError "not enough values to unpack, expected 2")
      else .error (.valueError "too many values to unpack, expected 2")

/-- `env_network_defaults(replace_ad_hoc)` of `overrides.py`.  When
`MESC_NETWORK_DEFAULTS` is unset, `network_defaults` is `None` and
`None.split(" ")` raises `AttributeError`; otherwise the comprehension over
`items` (which is never empty, `split` always yielding at least one part)
raises `NameError` or an unpacking `ValueError` — see `nd_comprehension`.
The function can never return normally. -/
def env_network_defaults (env : Env) (replace_ad_hoc : Bool) :
    Except PyErr (List (String × String)) :=
  match env.get "MESC_NETWORK_DEFAULTS" with
  | none => .error (.attributeError "NoneType object has no attribute split")
  | some network_defaults =>
      let items :=
        (network_defaults.splitOn " ").map (fun item => py_split_limit1 item "=")
      nd_comprehension items

/-- The tokens of the non-JSON branch of `env_network_names`, processed in
order: `item.split("=")` must yield exactly two parts to unpack into
`key, value` (`ValueError` otherwise), then `int(value)` may raise
`ValueError`; duplicate keys overwrite. -/
def nn_items_to_dict : List String → List (String × PyVal) →
    Except PyErr (List (String × PyVal))
  | [], acc => .ok acc
  | item :: rest, acc =>
      match item.splitOn "=" with
      | [k, v] => do
          let n ← py_int v
          nn_items_to_dict rest (dictSet acc k (.int n))
      | parts =>
          if parts.length < 2 then
            .error (.valueError "not enough values to unpack, expected 2")
          else
            .error (.valueError "too many values to unpack, expected 2")

/-- `env_network_names()` of `overrides.py` (the spec's
`parse_network_names`).  When `MESC_NETWORK_NAMES` is unset the value is
`None` and `None.startswith("{")` raises `AttributeError`; a value starting
with a brace goes through `json.loads`; otherwise space-separated
`ALIAS=CHAIN_ID` tokens are parsed. -/
def env_network_names (env : Env) : Except PyErr (List (String × PyVal)) :=
  match env.get "MESC_NETWORK_NAMES" with
  | none =>
      .error (.attributeError "NoneType object has no attribute startswith")
  | some network_names =>
      if py_startswith network_names "\x7b" then
        json_loads network_names
      else
        nn_items_to_dict (network_names.splitOn " ") []

/-- `env_endpoints()` of `overrides.py` (the spec's `parse_endpoints`).
The body creates the empty dict `endpoints = {}`, reads `MESC_ENDPOINTS`
into `raw_endpoints`, then iterates `for item in endpoints.split(" ")` —
over the dict, not the raw string — and dicts have no attribute `split`,
so `AttributeError` is raised for every environment, set or unset.  The
loop body (whose `re.match(pattern, string)` also names an unbound
`string`), the `_collect_ad_hoc_endpoints()` call (missing its required
`endpoints` argument) and the discarding of `ad_hoc_endpoints` are all
unreachable. -/
def env_endpoints (env : Env) : Except PyErr (List (String × Endpoint)) :=
  let _raw_endpoints := env.get "MESC_ENDPOINTS"
  .error (.attributeError "dict object has no attribute split")

/-- `_collect_ad_hoc_endpoints(endpoints)` of `overrides.py`.  After
appending the raw `MESC_DEFAULT_ENDPOINT` value, it calls
`env_network_defaults(replace=False)` — but that function has no parameter
named `replace` (its parameter is `replace_ad_hoc`), so the call raises
`TypeError`.  The rest (an `env_profiles(replace=False)` call that would
also be a `TypeError`, a no-op `profile.get`, and a loop testing the
undefined name `_is_url`) is unreachable, the function body ends without a
`return`, and its caller discards the result anyway: no ad hoc endpoint is
ever synthesized. -/
def _collect_ad_hoc_endpoints (env : Env)
    (endpoints : List (String × Endpoint)) :
    Except PyErr (List (String × Endpoint)) :=
  let _raw_endpoints : List (Option String) := [env.get "MESC_DEFAULT_ENDPOINT"]
  .error (.typeError
    "env_network_defaults got an unexpected keyword argument replace")

/-- `env_profiles()` of `overrides.py` (the spec's `parse_profiles`).
When `MESC_PROFILES` is unset it returns the empty mapping.  When it is
set, the loop `for item in profiles.split(" ")` iterates over the empty
dict `profiles` just created — not over `raw_profiles` — and dicts have no
attribute `split`, so `AttributeError` is raised.  The loop body (which
would additionally subscript the `None`-valued `network_defaults` field and
raise a bare `Exception` rather than `InvalidOverrideError` on a bad key
shape) is unreachable. -/
def env_profiles (env : Env) : Except PyErr (List (String × Profile)) :=
  match env.get "MESC_PROFILES" with
  | none => .ok []
  | some _raw_profiles =>
      .error (.attributeError "dict object has no attribute split")

/-- `env_global_metadata()` of `overrides.py`: `json.loads` of
`MESC_GLOBAL_METADATA` when set, the empty mapping otherwise. -/
def env_global_metadata (env : Env) : Except PyErr (List (String × PyVal)) :=
  match env.get "MESC_GLOBAL_METADATA" with
  | some global_metadata => json_loads global_metadata
  | none => .ok []

/-- `env_endpoint_metadata()` of `overrides.py`: `json.loads` of
`MESC_ENDPOINT_METADATA` when set, the empty mapping otherwise.  (Its only
intended caller instead accesses `.items` on the function object itself —
see `apply_env_overrides`.) -/
def env_endpoint_metadata (env : Env) : Except PyErr (List (String × PyVal)) :=
  match env.get "MESC_ENDPOINT_METADATA" with
  | some endpoint_metadata => json_loads endpoint_metadata
  | none => .ok []

/-- The call `env_endpoints(config)` in `apply_env_overrides`:
`env_endpoints` is declared with no parameters, so passing `config` raises
`TypeError` before the callee's body runs. -/
def env_endpoints_call_with_config : Except PyErr (List (String × Endpoint)) :=
  .error (.typeError "env_endpoints takes 0 positional arguments but 1 was given")

/-- The call `env_network_defaults()` in `apply_env_overrides`: the callee's
required positional argument `replace_ad_hoc` is missing, so the call raises
`TypeError`. -/
def env_network_defaults_call_no_args : Except PyErr (List (PyKey × String)) :=
  .error (.typeError
    "env_network_defaults missing 1 required positional argument replace_ad_hoc")

/-- The call `env_default_endpoint()` in `apply_env_overrides`: the callee's
required positional argument `config` is missing, so the call raises
`TypeError`.  Its phantom success type follows the source annotation
`-> str | None`. -/
def env_default_endpoint_call_no_args : Except PyErr (Option String) :=
  .error (.typeError
    "env_default_endpoint missing 1 required positional argument config")

/-- The expression `env_endpoint_metadata.items()` in `apply_env_overrides`:
the attribute is read off the *function object* (the call parentheses are
missing), and functions have no attribute `items`, so `AttributeError`. -/
def env_endpoint_metadata_items : Except PyErr (List (String × (List (String × PyVal)))) :=
  .error (.attributeError "function object has no attribute items")

/-- `apply_env_overrides(config)` of `overrides.py`, statement by statement
over the object store.  A non-`None` argument is deep-copied into a fresh
object; a `None` argument is replaced by a fresh literal configuration with
`mesc_version = "1.0"`.  The first update statement already raises
`TypeError` (see `env_endpoints_call_with_config`), so every later
statement of the body is dead code; it is nevertheless embedded faithfully,
including the further arity errors at `env_network_defaults()` and
`env_default_endpoint()` and the attribute error at
`env_endpoint_metadata.items()`. -/
def apply_env_overrides (env : Env) (configRef : Option Nat) : PyM Nat := do
  let base ← match configRef with
    | some r => readR r
    | none => pure emptyRpcConfig
  let r ← allocR base
  let eps ← liftE env_endpoints_call_with_config
  modifyR r (fun c => { c with endpoints := dictUpdate c.endpoints eps })
  let nn ← liftE (env_network_names env)
  modifyR r (fun c => { c with network_names := dictUpdate c.network_names nn })
  let nd ← liftE env_network_defaults_call_no_args
  modifyR r (fun c => { c with network_defaults := dictUpdate c.network_defaults nd })
  let ps ← liftE (env_profiles env)
  modifyR r (fun c => { c with profiles := dictUpdate c.profiles ps })
  let default_endpoint ← liftE env_default_endpoint_call_no_args
  match default_endpoint with
  | some s => modifyR r (fun c => { c with default_endpoint := some s })
  | none => pure ()
  let gm ← liftE (env_global_metadata env)
  modifyR r (fun c => { c with global_metadata := dictUpdate c.global_metadata gm })
  let _md ← liftE env_endpoint_metadata_items
  pure r

/-! Concrete material for the claims. -/

/-- A directory with no well-known aliases (the directory is irrelevant to
every settled execution, which fails before consulting it). -/
def dirEmpty : Directory := fun _ => none

/-- A named endpoint used by the concrete configurations below. -/
def epMainnet : Endpoint :=
  { name := "mainnet"
    url := "https://mainnet.example/rpc"
    chain_id := none
    endpoint_metadata := [] }

/-- A base configuration with an endpoint named `mainnet` and a network
default mapping chain id `"1"` to it, as in the spec's resolution example. -/
def cfgMainnet : RpcConfig :=
  { emptyRpcConfig with
      endpoints := [("mainnet", epMainnet)]
      network_defaults := [(.str "1", "mainnet")] }

/-- The environment of the spec's default-endpoint resolution example. -/
def envResolution : Env :=
  [("MESC_DEFAULT_ENDPOINT", "1"), ("MESC_NETWORK_DEFAULTS", "1=mainnet")]

/-- The environment of the spec's ad hoc endpoint synthesis example. -/
def envAdHoc : Env := [("MESC_NETWORK_DEFAULTS", "5=https://example.com/rpc")]

/-- The environment of the spec's invalid-alias example. -/
def envInvalidAlias : Env := [("MESC_DEFAULT_ENDPOINT", "nonexistent_alias")]

/-- An environment naming a chain id with no configured default. -/
def envChainFive : Env := [("MESC_DEFAULT_ENDPOINT", "5")]

/-- The environment of the spec's profile-parsing example. -/
def envProfilesExample : Env :=
  [("MESC_PROFILES", "dev.default_endpoint=mainnet dev.network_defaults.1=mainnet")]

/-- A base configuration used to exercise the frame property. -/
def cfgFrame : RpcConfig :=
  { emptyRpcConfig with
      default_endpoint := some "mainnet"
      endpoints := [("mainnet", epMainnet)]
      network_names := [("ethereum", .int 1)]
      network_defaults := [(.str "1", "mainnet")]
      global_metadata := [("source", .str "file")] }

/-- Reading an index of a store is unaffected by appending one object. -/
theorem store_read_append (σ : Store) (x c : RpcConfig) (r : Nat)
    (h : Store.read σ r = some c) : Store.read (σ ++ [x]) r = some c := by
  induction σ generalizing r with
  | nil => simp [Store.read] at h
  | cons a t ih =>
      cases r with
      | zero => exact h
      | succ n => exact ih n h

/-- C1: the claim states that `apply_env_overrides` merges each
environment-derived map into the corresponding map of the configuration by
shallow union.  In the code, the very first merge statement evaluates
`env_endpoints(config)`, a call with one argument to a function declared
with none, so every invocation — for every base configuration, reference
store and environment — raises `TypeError` and no merge is ever
performed. -/
theorem C1_apply_env_overrides_never_merges
    (env : Env) (configRef : Option Nat) (σ : Store) :
    (apply_env_overrides env configRef σ).1
      = .error (.typeError
          "env_endpoints takes 0 positional arguments but 1 was given") := by
  cases configRef <;> rfl

/-- C2: the configuration object the caller passes to
`apply_env_overrides` is deeply equal after the call to what it was before:
the function deep-copies its argument into a fresh object before any
update, and every in-place mutation targets the copy, so the store still
maps the caller's reference to the original value when the call returns
(here: when it raises). -/
theorem C2_apply_env_overrides_preserves_caller_config
    (env : Env) (σ : Store) (r : Nat) (c : RpcConfig)
    (h : Store.read σ r = some c) :
    Store.read (apply_env_overrides env (some r) σ).2 r = some c := by
  have hstore : (apply_env_overrides env (some r) σ).2
      = σ ++ [(Store.read σ r).getD emptyRpcConfig] := rfl
  rw [hstore]
  exact store_read_append σ _ c r h

/-- Witness for C2 at a concrete single-object store. -/
theorem C2_witness :
    Store.read [cfgFrame] 0 = some cfgFrame ∧
    Store.read (apply_env_overrides [] (some 0) [cfgFrame]).2 0 = some cfgFrame :=
  ⟨rfl, C2_apply_env_overrides_preserves_caller_config [] [cfgFrame] 0 cfgFrame rfl⟩

/-- C3: the claim states that with
`MESC_NETWORK_DEFAULTS="5=https://example.com/rpc"` an ad hoc endpoint is
synthesized and every referenced endpoint name exists in the returned
configuration's endpoint map.  In the code, `_collect_ad_hoc_endpoints`
itself dies on a `TypeError` (it calls `env_network_defaults` with the
nonexistent keyword `replace`), and `apply_env_overrides` on exactly the
spec's input never returns a configuration at all. -/
theorem C3_ad_hoc_synthesis_never_happens :
    (∀ eps, _collect_ad_hoc_endpoints envAdHoc eps
      = .error (.typeError
          "env_network_defaults got an unexpected keyword argument replace")) ∧
    (apply_env_overrides envAdHoc none []).1
      = .error (.typeError
          "env_endpoints takes 0 positional arguments but 1 was given") :=
  ⟨fun _ => rfl, rfl⟩

/-- C4: the claim states that a second application of the override pass to
the result of the first yields that same result.  No first result exists:
for every environment and store, applying the pass to a stored base
configuration produces an error, never a configuration that could be fed
back in. -/
theorem C4_no_first_result_to_reapply (env : Env) (σ : Store) :
    (apply_env_overrides env (some 0) σ).1.isOk = false := by
  rfl

/-- C5: the claim states that with `MESC_DEFAULT_ENDPOINT=1`,
`MESC_NETWORK_DEFAULTS="1=mainnet"` and an endpoint named `mainnet`,
resolution returns `"mainnet"`.  In the code, since `"1"` is not a key of
the endpoint map, the branch `default_endpoint.is_decimal()` is evaluated
and raises `AttributeError` (the `str` method is `isdecimal`), for any
network directory.  Moreover, even if that branch were repaired, the
chain-id lookup `config["network_defaults"].get(chain_id)` uses an `int`
key against a decimal-string-keyed map, so it would miss and raise
`MissingEndpointError`; the string-keyed lookup is the one that finds
`mainnet`. -/
theorem C5_resolution_example_crashes (dir : Directory) :
    env_default_endpoint dir envResolution cfgMainnet
      = .error (.attributeError "str object has no attribute is_decimal") ∧
    _chain_id_to_endpoint_name (.int 1) cfgMainnet
      = .error (.missingEndpoint "no endpoint for given default network: 1") ∧
    _chain_id_to_endpoint_name (.str "1") cfgMainnet = .ok "mainnet" :=
  ⟨rfl, rfl, rfl⟩

/-- C6: the claim states that a `MESC_DEFAULT_ENDPOINT` value matching no
endpoint, no decimal literal, no network name and no directory alias fails
with `InvalidOverrideError` propagating to the caller.  In the code, any
value that is not an endpoint-map key crashes with `AttributeError` at
`default_endpoint.is_decimal()` before the invalid-override branch is
reached — and that branch would `return` the exception object rather than
raise it anyway. -/
theorem C6_invalid_override_never_raised (dir : Directory) :
    env_default_endpoint dir envInvalidAlias emptyRpcConfig
      = .error (.attributeError "str object has no attribute is_decimal") :=
  rfl

/-- C7: the claim states that a chain id with no configured default fails
with `MissingEndpointError`.  The helper `_chain_id_to_endpoint_name` does
raise it in isolation, but `MESC_DEFAULT_ENDPOINT` resolution never reaches
a chain id: the decimal test `default_endpoint.is_decimal()` raises
`AttributeError` first, for any directory. -/
theorem C7_missing_endpoint_unreachable_from_resolution (dir : Directory) :
    env_default_endpoint dir envChainFive emptyRpcConfig
      = .error (.attributeError "str object has no attribute is_decimal") ∧
    _chain_id_to_endpoint_name (.int 5) emptyRpcConfig
      = .error (.missingEndpoint "no endpoint for given default network: 5") :=
  ⟨rfl, rfl⟩

/-- C8: the claim states that `env_endpoints` maps each
`NAME[:CHAIN_ID]=URL` token to an Endpoint, fails with
`InvalidOverrideError` on bad tokens, and returns an empty mapping when
`MESC_ENDPOINTS` is unset.  In the code, the loop iterates
`endpoints.split(" ")` over the freshly created empty dict instead of the
raw string, so every environment — the unset one included — raises
`AttributeError`. -/
theorem C8_env_endpoints_always_crashes (env : Env) :
    env_endpoints env
      = .error (.attributeError "dict object has no attribute split") :=
  rfl

/-- C9: the claim states that the spec's example value of `MESC_PROFILES`
yields one profile `dev` with its default endpoint and network default set.
In the code, whenever the variable is set the loop iterates
`profiles.split(" ")` over the empty accumulator dict instead of the raw
string and raises `AttributeError`; only the unset case (empty mapping)
behaves as specified. -/
theorem C9_env_profiles_crashes_on_spec_example :
    env_profiles envProfilesExample
      = .error (.attributeError "dict object has no attribute split") ∧
    env_profiles [] = .ok [] :=
  ⟨rfl, rfl⟩

/-- C10: the claim states that `MESC_NETWORK_NAMES="{}"` and an absent
variable both yield an empty mapping, absence of any variable contributing
nothing.  In the code the brace form does yield the empty mapping, but an
absent variable makes `network_names` the value `None`, and
`None.startswith("{")` raises `AttributeError` instead of contributing
nothing. -/
theorem C10_network_names_absence_crashes :
    env_network_names [("MESC_NETWORK_NAMES", "\x7b\x7d")] = .ok [] ∧
    env_network_names []
      = .error (.attributeError "NoneType object has no attribute startswith") :=
  ⟨rfl, rfl⟩

end Mesc
